import Mathlib

/-!
Shallow embedding of `src/downloader/download.py` (a bulk image downloader) and
verification of the behavioural properties stated in its specification.

The embedding models:
  - the filesystem as the sets of directory paths and file paths that exist,
  - the network as oracles: one outcome for the search-results page request of a
    query (`PageOutcome`) and one outcome per image request (`TaskWorld`),
  - Python exceptions as values of `PyError`; a caught-and-printed exception is
    an `.ok`-wrapped logged failure, an uncaught exception is an `Except.error`,
  - `ThreadPoolExecutor(...)` + `as_completed` loops whose bodies read the bare
    future object (never `future.result()`): each task's uncaught exception is
    captured in its future and silently discarded, so a pool run is a list of
    per-task `Except` outcomes and never re-raises.

Filesystem effects of concurrent tasks are folded sequentially; every task
creates the same per-query folder (idempotently) and writes its own distinct
filename, so the fold is insensitive to completion order.
-/

namespace ImageDownloader

/-- A filesystem path, modelled as its list of components from the root. -/
abbrev FPath := List String

/-- Model of the local filesystem: which paths exist as directories and which
as files. -/
structure FS where
  dirs : List FPath
  files : List FPath
deriving DecidableEq

/-- Python `Path(p).exists()`: the path exists as a directory or as a file. -/
def FS.existsPath (fs : FS) (p : FPath) : Bool :=
  decide (p ∈ fs.dirs) || decide (p ∈ fs.files)

/-- Python `Path(p).is_dir()`. -/
def FS.isDir (fs : FS) (p : FPath) : Bool :=
  decide (p ∈ fs.dirs)

/-- Record a list of directories as existing. -/
def FS.addDirs (fs : FS) (ps : List FPath) : FS :=
  { fs with dirs := ps ++ fs.dirs }

/-- Record a file as existing (a completed `open(path, 'wb')` + write). -/
def FS.addFile (fs : FS) (p : FPath) : FS :=
  { fs with files := p :: fs.files }

/-- Python exception values that the program can raise or catch. -/
inductive PyError
  | notADirectoryError
  | timeout
  | httpError
  | connectionError
  | ioError
  | jsonDecodeError
  | unboundLocalError (name : String)
  | typeError (msg : String)
deriving DecidableEq

/-- All prefixes of a path, the path itself included; `mkdir(parents=True)`
creates every missing one of them. -/
def pathAncestors (p : FPath) : List FPath :=
  (List.range (p.length + 1)).map (fun k => p.take k)

/-- Model of `pathlib.Path.mkdir(parents=..., exist_ok=...)`: an existing
directory target is an error unless `exist_ok`; an existing file target is an
error even with `exist_ok`; with `parents` every missing ancestor is created. -/
def mkdir (fs : FS) (p : FPath) (parents exist_ok : Bool) : Except PyError FS :=
  if fs.existsPath p then
    if exist_ok && fs.isDir p then .ok fs else .error .ioError
  else if parents then .ok (fs.addDirs (pathAncestors p))
  else if fs.existsPath p.dropLast then .ok (fs.addDirs [p])
  else .error .ioError

/-- Lines 61-75, `create_folder(output_dir, folder_name)`: if `output_dir`
exists, create `output_dir/folder_name` with `parents=True, exist_ok=True` and
return it; otherwise the function body is skipped and Python returns `None`. -/
def create_folder (fs : FS) (output_dir : FPath) (folder_name : String) :
    Except PyError (Option FPath × FS) :=
  if fs.existsPath output_dir then
    let folder := output_dir ++ [folder_name]
    (mkdir fs folder true true).map (fun fs' => (some folder, fs'))
  else .ok (none, fs)

/-- The apostrophe character, `Char.ofNat 39`. -/
def quoteChar : Char := Char.ofNat 39

/-- Python `str.strip(chars)`: remove the characters of `chars` from both ends. -/
def pyStrip (chars : List Char) (s : String) : String :=
  ⟨((s.data.dropWhile (· ∈ chars)).reverse.dropWhile (· ∈ chars)).reverse⟩

/-- Python `str.replace(old, new)` for one-character `old` and `new`. -/
def pyReplaceChar (old new : Char) (s : String) : String :=
  ⟨s.data.map (fun c => if c = old then new else c)⟩

/-- Lines 78-87, `default_query_name(query)`: strip the characters of `"['']"`
from both ends, replace every `+` by `_`, then (when a space is present)
replace every space by `_`. -/
def default_query_name (query : String) : String :=
  let query_string := pyReplaceChar '+' '_' (pyStrip ['[', quoteChar, ']'] query)
  if ' ' ∈ query_string.data then pyReplaceChar ' ' '_' query_string else query_string

/-- A csv file on disk: its path and its rows. -/
structure CsvFile where
  path : FPath
  rows : List (List String)
deriving DecidableEq

/-- Lines 90-106, `save_urls_csv(data, output_dir, name)`: `Path(None)` raises
`TypeError`; otherwise the csv (header row then one row per record, in order)
is written only when `output_dir` exists, and silently skipped when not. -/
def save_urls_csv (data : List (String × String)) (output_dir : Option FPath)
    (name : String) (fs : FS) : Except PyError (Option CsvFile × FS) :=
  match output_dir with
  | none => .error (.typeError "argument should be a str or an os.PathLike object, not NoneType")
  | some p =>
    let filename := name ++ "_urls.csv"
    if fs.existsPath p then
      let csv : CsvFile :=
        ⟨p ++ [filename], ["image_url", "extension"] :: data.map (fun r => [r.1, r.2])⟩
      .ok (some csv, fs.addFile (p ++ [filename]))
    else .ok (none, fs)

/-- Lines 30-41, `path_dir(dir_string)`: the argparse converter for
`--output_dir`; raises `NotADirectoryError` unless the string names an
existing directory. -/
def path_dir (fs : FS) (dir_string : FPath) : Except PyError FPath :=
  if fs.isDir dir_string then .ok dir_string else .error .notADirectoryError

/-- Lines 44-58, `default_path_downloads()`: the platform downloads directory,
an external collaborator modelled as an abstract location. -/
def default_path_downloads : FPath := ["home", "Downloads"]

/-- Outcome of the HTTP GET for the search-results page, together with the
`rg_meta` divs found by BeautifulSoup when the request succeeds: each div's
text either decodes (`json.loads`) to an `(ou, ity)` record, i.e.
`some (location, type_hint)`, or fails to decode (`none`). -/
inductive PageOutcome
  | ok (divs : List (Option (String × String)))
  | timeout
  | httpError
  | connectionError

/-- The parsing loop of `fetch_image_urls` (lines 166-173): collect the
records in order; `json.loads` raises on the first undecodable div text. -/
def parse_divs : List (Option (String × String)) → Except PyError (List (String × String))
  | [] => .ok []
  | none :: _ => .error .jsonDecodeError
  | some r :: rest => (parse_divs rest).map (r :: ·)

/-- What a call of `fetch_image_urls` produces: the messages it printed and
either the record list or the uncaught exception it raised. -/
structure FetchPageRun where
  log : List String
  result : Except PyError (List (String × String))

/-- Lines 134-175, `fetch_image_urls(url, query)`: the `try` block wraps only
the page request and the BeautifulSoup construction, and the `except` clauses
catch only `Timeout` and `HTTPError`, printing a message. When one of them is
caught, the local `soup` was never assigned, so the following
`soup.find_all(...)` raises `UnboundLocalError`; a `ConnectionError` from the
request and a `json.loads` failure are not caught at all. -/
def fetch_image_urls (page : PageOutcome) : FetchPageRun :=
  match page with
  | .timeout =>
      ⟨["The request has timed out, check your connection or/and proxy settings"],
       .error (.unboundLocalError "soup")⟩
  | .httpError =>
      ⟨["An invalid HTTP response."], .error (.unboundLocalError "soup")⟩
  | .connectionError => ⟨[], .error .connectionError⟩
  | .ok divs => ⟨[], parse_divs divs⟩

/-- Outcome of the HTTP GET for one image url. -/
inductive NetOutcome
  | ok
  | timeout
  | httpError
  | connectionError
deriving DecidableEq

/-- Per-task slice of the world: the outcome of this task's image request and
whether writing the image file succeeds (`writeOk = false` models an `IOError`
raised by `open`/`write`). -/
structure TaskWorld where
  net : NetOutcome
  writeOk : Bool
deriving DecidableEq

/-- What one fetch task produced when it did not raise: it ran to the end
successfully, or it hit an exception that `download_image_from_url` catches
and prints. An exception no handler catches appears as `Except.error`
instead. -/
inductive TaskResult
  | success
  | failedLogged (e : PyError)
deriving DecidableEq

/-- The filename built at line 204: `'image_' + str(idx) + '.' + extension`,
the extension taken verbatim from the record. -/
def image_filename (idx : Nat) (extension : String) : String :=
  "image_" ++ Nat.repr idx ++ "." ++ extension

/-- Lines 179-230, `download_image_from_url(image_tuple, query, idx,
output_dir, folder_name)`: request the image (`Timeout`, `HTTPError` and
`ConnectionError` are caught and printed), resolve the destination as
`create_folder(output_dir or Downloads, folder_name or
default_query_name(query))`, then write the file (`IOError` caught and
printed). When `create_folder` returned `None`, `path/filename` raises a
`TypeError` that no `except` clause catches. -/
def download_image_from_url (w : TaskWorld) (image : String × String) (query : String)
    (idx : Nat) (output_dir : Option FPath) (folder_name : Option String) (fs : FS) :
    Except PyError TaskResult × FS :=
  match w.net with
  | .timeout => (.ok (.failedLogged .timeout), fs)
  | .httpError => (.ok (.failedLogged .httpError), fs)
  | .connectionError => (.ok (.failedLogged .connectionError), fs)
  | .ok =>
    let filename := image_filename idx image.2
    let od := output_dir.getD default_path_downloads
    let fn := folder_name.getD (default_query_name query)
    match create_folder fs od fn with
    | .error e => (.error e, fs)
    | .ok (none, fs') =>
        (.error (.typeError "unsupported operand type for /: NoneType and str"), fs')
    | .ok (some path, fs') =>
        if w.writeOk then (.ok TaskResult.success, fs'.addFile (path ++ [filename]))
        else (.ok (.failedLogged .ioError), fs')

/-- The inner pool of `download_images_single_query_async` (lines 258-261):
one `download_image_from_url` future per `(idx, image)` of
`enumerate(images)`. The `as_completed` loop body reads the bare future, so a
future's exception is captured and never re-raised, and the pool never
short-circuits: every task contributes exactly one outcome. -/
def runPool (world : Nat → TaskWorld) (query : String) (output_dir : Option FPath)
    (folder_name : Option String) : Nat → List (String × String) → FS →
    List (Except PyError TaskResult) × FS
  | _, [], fs => ([], fs)
  | idx, image :: rest, fs =>
    let step := download_image_from_url (world idx) image query idx output_dir folder_name fs
    let next := runPool world query output_dir folder_name (idx + 1) rest step.2
    (step.1 :: next.1, next.2)

/-- What one `download_images_single_query_async` call produced when it did
not raise: the per-task outcomes of its pool (empty when no fetch task was
created) and the csv file it wrote, if any. -/
structure BatchRun where
  taskResults : List (Except PyError TaskResult)
  csv : Option CsvFile

/-- Lines 234-265, `download_images_single_query_async(query, output_dir,
folder_name, just_csv_no_download, urls_to_csv)`: substitute `+` for spaces in
the query, fetch and parse the search page, then (unless
`just_csv_no_download`) dispatch one fetch task per record to the inner pool,
and finally (when `urls_to_csv or just_csv_no_download`) save the records to
`<default_query_name(query)>_urls.csv`. An exception of `fetch_image_urls` or
`save_urls_csv` propagates out of this function. -/
def download_images_single_query_async (world : Nat → TaskWorld) (page : PageOutcome)
    (query : String) (output_dir : Option FPath) (folder_name : Option String)
    (just_csv_no_download urls_to_csv : Bool) (fs : FS) :
    Except PyError BatchRun × FS :=
  let q := pyReplaceChar ' ' '+' query
  match (fetch_image_urls page).result with
  | .error e => (.error e, fs)
  | .ok images =>
    let csv_filename := default_query_name q
    let pool :=
      if just_csv_no_download then ([], fs)
      else runPool world q output_dir folder_name 0 images fs
    if urls_to_csv || just_csv_no_download then
      match save_urls_csv images output_dir csv_filename pool.2 with
      | .error e => (.error e, pool.2)
      | .ok (csv, fs₂) => (.ok ⟨pool.1, csv⟩, fs₂)
    else (.ok ⟨pool.1, none⟩, pool.2)

/-- Per-query slice of the world: the page outcome of this query and the
worlds of its fetch tasks. -/
structure QueryWorld where
  page : PageOutcome
  tasks : Nat → TaskWorld

/-- Lines 268-282, `download_list_queries(list_queries, ...)`: the outer pool,
one `download_images_single_query_async` future per query. As in the inner
pool, the `as_completed` loop reads the bare future, so one query's uncaught
exception is captured in its future and never re-raised: it cannot abort
sibling queries or propagate past this orchestrator. -/
def download_list_queries (worlds : Nat → QueryWorld) (output_dir : Option FPath)
    (folder_name : Option String) (just_csv_no_download urls_to_csv : Bool) :
    Nat → List String → FS → List (Except PyError BatchRun) × FS
  | _, [], fs => ([], fs)
  | k, query :: rest, fs =>
    let step := download_images_single_query_async (worlds k).tasks (worlds k).page query
      output_dir folder_name just_csv_no_download urls_to_csv fs
    let next := download_list_queries worlds output_dir folder_name just_csv_no_download
      urls_to_csv (k + 1) rest step.2
    (step.1 :: next.1, next.2)

/-- The command-line namespace produced by `get_user_input` (lines 114-131). -/
structure RawArgs where
  query : Option (List String)
  num_images : Nat
  list_queries : Option (List (List String))
  output_dir : Option FPath
  folder_name : Option String
  urls_to_csv : Bool
  just_csv_no_download : Bool

/-- Lines 114-131, `get_user_input()`: argparse applies the `path_dir`
converter to `--output_dir` when it is supplied; a converter exception is
fatal before the parsed namespace is returned. -/
def get_user_input (fs : FS) (args : RawArgs) : Except PyError RawArgs :=
  match args.output_dir with
  | none => .ok args
  | some d => (path_dir fs d).map (fun _ => args)

/-- Python `str()` of a list of strings, e.g. `["red", "bear"]` to
`['red', 'bear']` with quotes. -/
def pyStrList (xs : List String) : String :=
  "[" ++ String.intercalate ", "
    (xs.map (fun s => ⟨quoteChar :: s.data ++ [quoteChar]⟩)) ++ "]"

/-- The characters of the Python string `"[''],"` used by the `-l`
normalization. -/
def listJunkChars : List Char := ['[', quoteChar, quoteChar, ']', ',']

/-- Line 306: `' '.join(c for c in query if c not in "[''],")`, applied to one
`-l` token list; a token is kept unless it is a substring of `"[''],"`. -/
def normalize_list_query (tokens : List String) : String :=
  String.intercalate " " (tokens.filter (fun c => !(decide (c.data <:+: listJunkChars))))

/-- What a whole program run produced when it did not raise: the single-query
batch (from `-q`) and the per-query outcomes of the `-l` orchestrator. -/
structure MainRun where
  singleBatch : Option BatchRun
  listBatches : Option (List (Except PyError BatchRun))

/-- Lines 287-308, the `__main__` block after `get_user_input` unpacked: the
`-q` branch calls `download_images_single_query_async` directly (its uncaught
exceptions crash the run), the `-l` branch normalizes each token list and
calls `download_list_queries`. `num_images` is unpacked (line 294) and never
used again. -/
def main_block (query : Option (List String)) (urls_to_csv : Bool)
    (output_dir : Option FPath) (num_images : Nat) (folder_name : Option String)
    (just_csv_no_download : Bool) (list_queries : Option (List (List String)))
    (wq : QueryWorld) (worlds : Nat → QueryWorld) (fs : FS) :
    Except PyError (MainRun × FS) :=
  let step1 : Except PyError (Option BatchRun × FS) :=
    match query with
    | some qtoks =>
      if qtoks.isEmpty then .ok (none, fs)
      else
        match download_images_single_query_async wq.tasks wq.page (pyStrList qtoks)
            output_dir folder_name just_csv_no_download urls_to_csv fs with
        | (.error e, _) => .error e
        | (.ok b, fs₁) => .ok (some b, fs₁)
    | none => .ok (none, fs)
  match step1 with
  | .error e => .error e
  | .ok (single, fs₁) =>
    match list_queries with
    | some ls =>
      if ls.isEmpty then .ok (⟨single, none⟩, fs₁)
      else
        let qs := ls.map normalize_list_query
        let run := download_list_queries worlds output_dir folder_name
          just_csv_no_download urls_to_csv 0 qs fs₁
        .ok (⟨single, some run.1⟩, run.2)
    | none => .ok (⟨single, none⟩, fs₁)

/-- The whole program: parse and validate the arguments, then run the
`__main__` block on the unpacked fields. -/
def main_run (args : RawArgs) (wq : QueryWorld) (worlds : Nat → QueryWorld) (fs : FS) :
    Except PyError (MainRun × FS) :=
  match get_user_input fs args with
  | .error e => .error e
  | .ok inputs =>
    main_block inputs.query inputs.urls_to_csv inputs.output_dir inputs.num_images
      inputs.folder_name inputs.just_csv_no_download inputs.list_queries wq worlds fs

/-- The `max_workers=5` of the inner `ThreadPoolExecutor` (line 258). -/
def inner_pool_max_workers : Nat := 5

/-- The `max_workers=5` of the outer `ThreadPoolExecutor` (line 279). -/
def outer_pool_max_workers : Nat := 5

/-- Scheduling state of one `ThreadPoolExecutor`: the submitted tasks not yet
started, the tasks currently in flight, and the finished tasks. -/
structure PoolState where
  pending : List Nat
  running : List Nat
  done : List Nat
deriving DecidableEq

/-- The pool state right after `executor.submit` was called on all `n` tasks. -/
def initPool (n : Nat) : PoolState :=
  ⟨List.range n, [], []⟩

/-- One scheduling step of a `ThreadPoolExecutor` with `width` workers: a
pending task may start only while fewer than `width` tasks are in flight; an
in-flight task may finish. -/
inductive PoolStep (width : Nat) : PoolState → PoolState → Prop
  | start (t : Nat) (pend run don : List Nat) :
      run.length < width → t ∈ pend →
      PoolStep width ⟨pend, run, don⟩ ⟨pend.erase t, t :: run, don⟩
  | finish (t : Nat) (pend run don : List Nat) :
      t ∈ run →
      PoolStep width ⟨pend, run, don⟩ ⟨pend, run.erase t, t :: don⟩

/-- The pool states reachable while a `ThreadPoolExecutor` of the given width
works through `n` submitted tasks. -/
def PoolReachable (width n : Nat) (s : PoolState) : Prop :=
  Relation.ReflTransGen (PoolStep width) (initPool n) s

/-- Derived characterization (used to state lemmas): the destination folder a
task of one batch resolves to, `(output_dir or Downloads) / (folder_name or
default_query_name(query))`. -/
def taskFolder (output_dir : Option FPath) (folder_name : Option String) (query : String) :
    FPath :=
  output_dir.getD default_path_downloads ++ [folder_name.getD (default_query_name query)]

/-- Derived characterization: whether `mkdir(parents=True, exist_ok=True)` on
`p` succeeds, i.e. `p` does not already exist as a non-directory. -/
def canCreate (fs : FS) (p : FPath) : Bool :=
  !(fs.existsPath p) || fs.isDir p

/-- Derived characterization: the outcome of one fetch task as a function of
its own world slice and the only two filesystem conditions it can observe
(whether the base output directory exists, and whether the per-query folder
can be created). Proved equal to the first component of
`download_image_from_url` below. -/
def task_result (w : TaskWorld) (baseExists can : Bool) : Except PyError TaskResult :=
  match w.net with
  | .timeout => .ok (.failedLogged .timeout)
  | .httpError => .ok (.failedLogged .httpError)
  | .connectionError => .ok (.failedLogged .connectionError)
  | .ok =>
    if baseExists then
      if can then
        if w.writeOk then .ok TaskResult.success else .ok (.failedLogged .ioError)
      else .error .ioError
    else .error (.typeError "unsupported operand type for /: NoneType and str")

end ImageDownloader

namespace ImageDownloader

/-! Decimal representation facts for `Nat.repr`, needed for the uniqueness of
the `image_<idx>.<extension>` filenames. -/

theorem digitChar_isDigit : ∀ m < 10, (Nat.digitChar m).isDigit = true := by decide

theorem digitChar_inj_lt : ∀ a < 10, ∀ b < 10, Nat.digitChar a = Nat.digitChar b → a = b := by
  decide

theorem toDigitsCore_fuel : ∀ (n f₁ f₂ : Nat) (ds : List Char), n < f₁ → n < f₂ →
    Nat.toDigitsCore 10 f₁ n ds = Nat.toDigitsCore 10 f₂ n ds := by
  intro n
  induction n using Nat.strong_induction_on with
  | _ n ih =>
    intro f₁ f₂ ds h₁ h₂
    cases f₁ with
    | zero => omega
    | succ f₁ =>
      cases f₂ with
      | zero => omega
      | succ f₂ =>
        simp only [Nat.toDigitsCore]
        by_cases h0 : n / 10 = 0
        · simp [h0]
        · simp only [if_neg h0]
          exact ih (n / 10) (by omega) f₁ f₂ _ (by omega) (by omega)

theorem toDigitsCore_acc : ∀ (n f : Nat) (ds : List Char), n < f →
    Nat.toDigitsCore 10 f n ds = Nat.toDigitsCore 10 f n [] ++ ds := by
  intro n
  induction n using Nat.strong_induction_on with
  | _ n ih =>
    intro f ds h
    cases f with
    | zero => omega
    | succ f =>
      simp only [Nat.toDigitsCore]
      by_cases h0 : n / 10 = 0
      · simp [h0]
      · simp only [if_neg h0]
        rw [ih (n / 10) (by omega) f _ (by omega),
          ih (n / 10) (by omega) f [Nat.digitChar (n % 10)] (by omega),
          List.append_assoc]
        simp

theorem toDigits_eq_single (n : Nat) (h : n < 10) :
    Nat.toDigits 10 n = [Nat.digitChar n] := by
  have h0 : n / 10 = 0 := by omega
  simp [Nat.toDigits, Nat.toDigitsCore, h0, Nat.mod_eq_of_lt h]

theorem toDigits_eq_append (n : Nat) (h : 10 ≤ n) :
    Nat.toDigits 10 n = Nat.toDigits 10 (n / 10) ++ [Nat.digitChar (n % 10)] := by
  have h0 : ¬ n / 10 = 0 := by omega
  have e1 : Nat.toDigits 10 n = Nat.toDigitsCore 10 n (n / 10) [Nat.digitChar (n % 10)] := by
    simp only [Nat.toDigits, Nat.toDigitsCore, if_neg h0]
  rw [e1, toDigitsCore_acc (n / 10) n _ (by omega),
    toDigitsCore_fuel (n / 10) n (n / 10 + 1) [] (by omega) (by omega)]
  rfl

theorem toDigits_all_isDigit (n : Nat) : ∀ c ∈ Nat.toDigits 10 n, c.isDigit = true := by
  induction n using Nat.strong_induction_on with
  | _ n ih =>
    by_cases h : n < 10
    · rw [toDigits_eq_single n h]
      intro c hc
      rw [List.mem_singleton] at hc
      subst hc
      exact digitChar_isDigit n h
    · rw [toDigits_eq_append n (by omega)]
      intro c hc
      rcases List.mem_append.mp hc with h1 | h1
      · exact ih (n / 10) (by omega) c h1
      · rw [List.mem_singleton] at h1
        subst h1
        exact digitChar_isDigit (n % 10) (by omega)

theorem toDigits_ne_nil (n : Nat) : Nat.toDigits 10 n ≠ [] := by
  by_cases h : n < 10
  · rw [toDigits_eq_single n h]
    simp
  · rw [toDigits_eq_append n (by omega)]
    simp

theorem toDigits_inj : ∀ m n : Nat, Nat.toDigits 10 m = Nat.toDigits 10 n → m = n := by
  intro m
  induction m using Nat.strong_induction_on with
  | _ m ih =>
    intro n h
    by_cases hm : m < 10 <;> by_cases hn : n < 10
    · rw [toDigits_eq_single m hm, toDigits_eq_single n hn] at h
      exact digitChar_inj_lt m hm n hn (List.singleton_inj.mp h)
    · exfalso
      rw [toDigits_eq_single m hm, toDigits_eq_append n (by omega)] at h
      have hlen := congrArg List.length h
      simp at hlen
      exact toDigits_ne_nil (n / 10) hlen.symm.symm
    · exfalso
      rw [toDigits_eq_append m (by omega), toDigits_eq_single n hn] at h
      have hlen := congrArg List.length h
      simp at hlen
      exact toDigits_ne_nil (m / 10) hlen
    · rw [toDigits_eq_append m (by omega), toDigits_eq_append n (by omega)] at h
      obtain ⟨h1, h2⟩ := List.append_inj' h (by simp)
      have hdiv : m / 10 = n / 10 := ih (m / 10) (by omega) (n / 10) h1
      have hmod : m % 10 = n % 10 :=
        digitChar_inj_lt (m % 10) (by omega) (n % 10) (by omega) (List.singleton_inj.mp h2)
      omega

theorem repr_data_eq (n : Nat) : (Nat.repr n).data = Nat.toDigits 10 n := rfl

theorem repr_inj {m n : Nat} (h : Nat.repr m = Nat.repr n) : m = n := by
  apply toDigits_inj
  rw [← repr_data_eq, ← repr_data_eq, h]

theorem digit_chars_prefix_eq : ∀ (xs ys zs ws : List Char),
    (∀ c ∈ xs, c.isDigit = true) → (∀ c ∈ ys, c.isDigit = true) →
    xs ++ '.' :: zs = ys ++ '.' :: ws → xs = ys := by
  intro xs
  induction xs with
  | nil =>
    intro ys zs ws _ hy h
    cases ys with
    | nil => rfl
    | cons b ys' =>
      exfalso
      simp only [List.nil_append, List.cons_append, List.cons.injEq] at h
      have hb := hy b (List.mem_cons_self b ys')
      rw [← h.1] at hb
      simp [Char.isDigit] at hb
  | cons a xs' ihx =>
    intro ys zs ws hx hy h
    cases ys with
    | nil =>
      exfalso
      simp only [List.nil_append, List.cons_append, List.cons.injEq] at h
      have ha := hx a (List.mem_cons_self a xs')
      rw [h.1] at ha
      simp [Char.isDigit] at ha
    | cons b ys' =>
      simp only [List.cons_append, List.cons.injEq] at h
      rw [h.1, ihx ys' zs ws (fun c hc => hx c (List.mem_cons_of_mem a hc))
        (fun c hc => hy c (List.mem_cons_of_mem b hc)) h.2]

theorem image_filename_inj {i j : Nat} {e₁ e₂ : String}
    (h : image_filename i e₁ = image_filename j e₂) : i = j := by
  have hd := congrArg String.data h
  simp only [image_filename, String.data_append, List.append_assoc] at hd
  have h2 : (Nat.repr i).data ++ '.' :: e₁.data = (Nat.repr j).data ++ '.' :: e₂.data := by
    have := List.append_cancel_left hd
    simpa using this
  have h3 := digit_chars_prefix_eq _ _ _ _
    (by rw [repr_data_eq]; exact toDigits_all_isDigit i)
    (by rw [repr_data_eq]; exact toDigits_all_isDigit j) h2
  exact repr_inj (String.ext h3)

theorem image_filename_ne {i j : Nat} (e₁ e₂ : String) (hne : i ≠ j) :
    image_filename i e₁ ≠ image_filename j e₂ :=
  fun h => hne (image_filename_inj h)

end ImageDownloader

namespace ImageDownloader

/-! Filesystem lemmas. -/

theorem existsPath_addDirs_of {fs : FS} {p : FPath} (l : List FPath)
    (h : fs.existsPath p = true) : (fs.addDirs l).existsPath p = true := by
  simp only [FS.existsPath, FS.addDirs, List.mem_append, Bool.or_eq_true, decide_eq_true_eq] at *
  tauto

theorem existsPath_addFile_of {fs : FS} {p : FPath} (q : FPath)
    (h : fs.existsPath p = true) : (fs.addFile q).existsPath p = true := by
  simp only [FS.existsPath, FS.addFile, List.mem_cons, Bool.or_eq_true, decide_eq_true_eq] at *
  tauto

theorem isDir_addFile (fs : FS) (p q : FPath) : (fs.addFile q).isDir p = fs.isDir p := rfl

theorem existsPath_addFile (fs : FS) (p q : FPath) :
    (fs.addFile q).existsPath p = (fs.existsPath p || decide (p = q)) := by
  simp only [FS.existsPath, FS.addFile, List.mem_cons]
  by_cases h1 : p = q <;> by_cases h2 : p ∈ fs.dirs <;> by_cases h3 : p ∈ fs.files <;>
    simp [h1, h2, h3]

theorem isDir_addDirs_of_mem {p : FPath} (fs : FS) (l : List FPath) (h : p ∈ l) :
    (fs.addDirs l).isDir p = true := by
  simp only [FS.isDir, FS.addDirs, List.mem_append, decide_eq_true_eq]
  exact Or.inl h

theorem existsPath_of_isDir {fs : FS} {p : FPath} (h : fs.isDir p = true) :
    fs.existsPath p = true := by
  simp only [FS.isDir, decide_eq_true_eq] at h
  simp only [FS.existsPath, Bool.or_eq_true, decide_eq_true_eq]
  exact Or.inl h

theorem mem_pathAncestors_self (p : FPath) : p ∈ pathAncestors p := by
  simp only [pathAncestors, List.mem_map]
  exact ⟨p.length, by simp, List.take_length p⟩

theorem mem_pathAncestors_append (d : FPath) (x : String) : d ∈ pathAncestors (d ++ [x]) := by
  simp only [pathAncestors, List.mem_map]
  exact ⟨d.length, by simp [List.mem_range]; omega, List.take_left d [x]⟩

/-! Behaviour of `create_folder`. -/

theorem create_folder_not_exists {fs : FS} {d : FPath} (n : String)
    (h : fs.existsPath d = false) : create_folder fs d n = .ok (none, fs) := by
  simp [create_folder, h]

theorem create_folder_folder_old {fs : FS} {d : FPath} {n : String}
    (hb : fs.existsPath d = true) (hf : fs.existsPath (d ++ [n]) = true)
    (hd : fs.isDir (d ++ [n]) = true) :
    create_folder fs d n = .ok (some (d ++ [n]), fs) := by
  simp [create_folder, mkdir, hb, hf, hd, Except.map]

theorem create_folder_folder_new {fs : FS} {d : FPath} {n : String}
    (hb : fs.existsPath d = true) (hf : fs.existsPath (d ++ [n]) = false) :
    create_folder fs d n = .ok (some (d ++ [n]), fs.addDirs (pathAncestors (d ++ [n]))) := by
  simp [create_folder, mkdir, hb, hf, Except.map]

theorem create_folder_blocked {fs : FS} {d : FPath} {n : String}
    (hb : fs.existsPath d = true) (hf : fs.existsPath (d ++ [n]) = true)
    (hd : fs.isDir (d ++ [n]) = false) :
    create_folder fs d n = .error .ioError := by
  simp [create_folder, mkdir, hb, hf, hd, Except.map]

end ImageDownloader

namespace ImageDownloader

/-! Behaviour of one fetch task. -/

theorem ne_append_singleton (p : FPath) (x : String) : p ≠ p ++ [x] := by simp

theorem canCreate_addFile_of_ne {p q : FPath} (fs : FS) (h : p ≠ q) :
    canCreate (fs.addFile q) p = canCreate fs p := by
  simp [canCreate, existsPath_addFile, isDir_addFile, h]

/-- The outcome of one task is `task_result` of its world slice and the two
filesystem conditions. -/
theorem download_fst (w : TaskWorld) (img : String × String) (q : String) (i : Nat)
    (od : Option FPath) (fn : Option String) (fs : FS) :
    (download_image_from_url w img q i od fn fs).1 =
      task_result w (fs.existsPath (od.getD default_path_downloads))
        (canCreate fs (taskFolder od fn q)) := by
  obtain ⟨net, wr⟩ := w
  cases net
  case timeout => rfl
  case httpError => rfl
  case connectionError => rfl
  case ok =>
    simp only [download_image_from_url, task_result, taskFolder]
    by_cases hb : fs.existsPath (od.getD default_path_downloads) = true
    · by_cases hf : fs.existsPath (od.getD default_path_downloads ++
        [fn.getD (default_query_name q)]) = true
      · by_cases hd : fs.isDir (od.getD default_path_downloads ++
          [fn.getD (default_query_name q)]) = true
        · rw [create_folder_folder_old hb hf hd]
          simp only [canCreate, hf, hd, Bool.not_true, Bool.false_or, if_pos hb, if_pos rfl]
          cases wr <;> rfl
        · rw [create_folder_blocked hb hf (by simpa using hd)]
          simp [canCreate, hf, hd, hb]
      · rw [create_folder_folder_new hb (by simpa using hf)]
        simp only [canCreate, Bool.not_eq_true] at hf ⊢
        simp only [hf, Bool.not_false, Bool.true_or, if_pos hb, if_pos rfl]
        cases wr <;> rfl
    · rw [create_folder_not_exists _ (by simpa using hb)]
      simp [hb]

/-- One task changes neither whether the base directory exists nor whether the
per-query folder can be created. -/
theorem download_snd_invariants (w : TaskWorld) (img : String × String) (q : String)
    (i : Nat) (od : Option FPath) (fn : Option String) (fs : FS) :
    ((download_image_from_url w img q i od fn fs).2).existsPath
        (od.getD default_path_downloads) = fs.existsPath (od.getD default_path_downloads) ∧
    canCreate ((download_image_from_url w img q i od fn fs).2) (taskFolder od fn q) =
      canCreate fs (taskFolder od fn q) := by
  obtain ⟨net, wr⟩ := w
  cases net
  case timeout => exact ⟨rfl, rfl⟩
  case httpError => exact ⟨rfl, rfl⟩
  case connectionError => exact ⟨rfl, rfl⟩
  case ok =>
    simp only [download_image_from_url, taskFolder]
    by_cases hb : fs.existsPath (od.getD default_path_downloads) = true
    · by_cases hf : fs.existsPath (od.getD default_path_downloads ++
        [fn.getD (default_query_name q)]) = true
      · by_cases hd : fs.isDir (od.getD default_path_downloads ++
          [fn.getD (default_query_name q)]) = true
        · rw [create_folder_folder_old hb hf hd]
          cases wr
          · exact ⟨rfl, rfl⟩
          · constructor
            · dsimp only
              rw [if_pos rfl]
              dsimp only
              rw [existsPath_addFile_of _ hb, hb]
            · dsimp only
              rw [if_pos rfl]
              dsimp only
              rw [canCreate_addFile_of_ne _ (ne_append_singleton _ _)]
        · rw [create_folder_blocked hb hf (by simpa using hd)]
          exact ⟨rfl, rfl⟩
      · rw [create_folder_folder_new hb (by simpa using hf)]
        have hanc : (od.getD default_path_downloads ++ [fn.getD (default_query_name q)]) ∈
            pathAncestors (od.getD default_path_downloads ++ [fn.getD (default_query_name q)]) :=
          mem_pathAncestors_self _
        have hdirNew := isDir_addDirs_of_mem fs _ hanc
        have hexNew := existsPath_of_isDir hdirNew
        have hcanFs : canCreate fs (od.getD default_path_downloads ++
            [fn.getD (default_query_name q)]) = true := by
          simp only [canCreate, Bool.not_eq_true] at hf ⊢
          simp [hf]
        cases wr
        · constructor
          · dsimp only
            rw [if_neg (by decide : ¬ false = true)]
            dsimp only
            rw [existsPath_addDirs_of _ hb, hb]
          · dsimp only
            rw [if_neg (by decide : ¬ false = true)]
            dsimp only
            rw [hcanFs]
            simp [canCreate, hexNew, hdirNew]
        · constructor
          · dsimp only
            rw [if_pos rfl]
            dsimp only
            rw [existsPath_addFile_of _ (existsPath_addDirs_of _ hb), hb]
          · dsimp only
            rw [if_pos rfl]
            dsimp only
            rw [canCreate_addFile_of_ne _ (ne_append_singleton _ _), hcanFs]
            simp [canCreate, hexNew, hdirNew]
    · rw [create_folder_not_exists _ (by simpa using hb)]
      exact ⟨rfl, rfl⟩

/-- A task never removes a file. -/
theorem download_files_mono (w : TaskWorld) (img : String × String) (q : String) (i : Nat)
    (od : Option FPath) (fn : Option String) (fs : FS) {p : FPath} (h : p ∈ fs.files) :
    p ∈ ((download_image_from_url w img q i od fn fs).2).files := by
  obtain ⟨net, wr⟩ := w
  cases net
  case timeout => exact h
  case httpError => exact h
  case connectionError => exact h
  case ok =>
    simp only [download_image_from_url]
    by_cases hb : fs.existsPath (od.getD default_path_downloads) = true
    · by_cases hf : fs.existsPath (od.getD default_path_downloads ++
        [fn.getD (default_query_name q)]) = true
      · by_cases hd : fs.isDir (od.getD default_path_downloads ++
          [fn.getD (default_query_name q)]) = true
        · rw [create_folder_folder_old hb hf hd]
          cases wr
          · exact h
          · exact List.mem_cons_of_mem _ h
        · rw [create_folder_blocked hb hf (by simpa using hd)]
          exact h
      · rw [create_folder_folder_new hb (by simpa using hf)]
        cases wr
        · exact h
        · exact List.mem_cons_of_mem _ h
    · rw [create_folder_not_exists _ (by simpa using hb)]
      exact h

/-- A successful task writes its image file at
`taskFolder / image_<idx>.<extension>`. -/
theorem download_writes (w : TaskWorld) (img : String × String) (q : String) (i : Nat)
    (od : Option FPath) (fn : Option String) (fs : FS)
    (hb : fs.existsPath (od.getD default_path_downloads) = true)
    (hcan : canCreate fs (taskFolder od fn q) = true)
    (hnet : w.net = .ok) (hwr : w.writeOk = true) :
    (taskFolder od fn q ++ [image_filename i img.2]) ∈
      ((download_image_from_url w img q i od fn fs).2).files := by
  obtain ⟨net, wr⟩ := w
  simp only at hnet hwr
  subst hnet
  subst hwr
  simp only [download_image_from_url, taskFolder] at *
  by_cases hf : fs.existsPath (od.getD default_path_downloads ++
      [fn.getD (default_query_name q)]) = true
  · have hd : fs.isDir (od.getD default_path_downloads ++
        [fn.getD (default_query_name q)]) = true := by
      simp only [canCreate, hf, Bool.not_true, Bool.false_or] at hcan
      exact hcan
    rw [create_folder_folder_old hb hf hd]
    exact List.mem_cons_self _ _
  · rw [create_folder_folder_new hb (by simpa using hf)]
    exact List.mem_cons_self _ _

end ImageDownloader

namespace ImageDownloader

/-! Behaviour of the inner pool. -/

/-- The outcome list of one batch: one `task_result` per record, the task of
index `k + j` for the `j`-th record, all observing the same two filesystem
conditions. -/
theorem runPool_fst (w : Nat → TaskWorld) (q : String) (od : Option FPath)
    (fn : Option String) : ∀ (images : List (String × String)) (k : Nat) (fs : FS),
    (runPool w q od fn k images fs).1 =
      (List.range images.length).map (fun j => task_result (w (k + j))
        (fs.existsPath (od.getD default_path_downloads))
        (canCreate fs (taskFolder od fn q))) := by
  intro images
  induction images with
  | nil =>
    intro k fs
    rfl
  | cons img rest ih =>
    intro k fs
    have hinv := download_snd_invariants (w k) img q k od fn fs
    simp only [runPool]
    rw [download_fst, ih (k + 1) _, hinv.1, hinv.2]
    simp only [List.length_cons, List.range_succ_eq_map, List.map_cons, List.map_map,
      Nat.add_zero, List.cons.injEq]
    refine ⟨trivial, List.map_congr_left ?_⟩
    intro j _
    simp only [Function.comp_apply]
    have heq : k + 1 + j = k + (j + 1) := by omega
    rw [heq]

theorem runPool_length (w : Nat → TaskWorld) (q : String) (od : Option FPath)
    (fn : Option String) (images : List (String × String)) (k : Nat) (fs : FS) :
    (runPool w q od fn k images fs).1.length = images.length := by
  rw [runPool_fst]
  simp

theorem runPool_files_mono (w : Nat → TaskWorld) (q : String) (od : Option FPath)
    (fn : Option String) : ∀ (images : List (String × String)) (k : Nat) (fs : FS)
    (p : FPath), p ∈ fs.files → p ∈ ((runPool w q od fn k images fs).2).files := by
  intro images
  induction images with
  | nil =>
    intro k fs p h
    exact h
  | cons img rest ih =>
    intro k fs p h
    exact ih (k + 1) _ p (download_files_mono (w k) img q k od fn fs h)

/-- In an all-successful batch, the task of record `i` leaves its image file
at `taskFolder / image_<k+i>.<extension of record i>`. -/
theorem runPool_writes (w : Nat → TaskWorld) (q : String) (od : Option FPath)
    (fn : Option String) : ∀ (images : List (String × String)) (k : Nat) (fs : FS),
    fs.existsPath (od.getD default_path_downloads) = true →
    canCreate fs (taskFolder od fn q) = true →
    (∀ j, w j = ⟨NetOutcome.ok, true⟩) →
    ∀ i, (hi : i < images.length) →
      (taskFolder od fn q ++ [image_filename (k + i) (images.get ⟨i, hi⟩).2]) ∈
        ((runPool w q od fn k images fs).2).files := by
  intro images
  induction images with
  | nil =>
    intro k fs _ _ _ i hi
    exact absurd hi (by simp)
  | cons img rest ih =>
    intro k fs hb hcan hw i hi
    have hinv := download_snd_invariants (w k) img q k od fn fs
    match i with
    | 0 =>
      have hw0 := hw k
      have hwrite := download_writes (w k) img q k od fn fs hb hcan
        (by rw [hw0]) (by rw [hw0])
      have := runPool_files_mono w q od fn rest (k + 1)
        (download_image_from_url (w k) img q k od fn fs).2 _ hwrite
      simpa [runPool] using this
    | Nat.succ i' =>
      have hi' : i' < rest.length := by simpa using hi
      have hrec := ih (k + 1) (download_image_from_url (w k) img q k od fn fs).2
        (by rw [hinv.1, hb]) (by rw [hinv.2, hcan]) hw i' hi'
      have heq : k + 1 + i' = k + (i' + 1) := by omega
      rw [heq] at hrec
      simpa [runPool] using hrec

/-- Parsing a page whose divs all decode yields exactly those records. -/
theorem parse_divs_map_some : ∀ l : List (String × String), parse_divs (l.map some) = .ok l := by
  intro l
  induction l with
  | nil => rfl
  | cons a l ih => simp [parse_divs, ih, Except.map]

/-- The worker-pool scheduling invariant: a reachable pool state never has
more tasks in flight than the pool width. -/
theorem pool_run_bound (width n : Nat) (s : PoolState) (h : PoolReachable width n s) :
    s.running.length ≤ width := by
  induction h with
  | refl => simp [initPool]
  | tail hst step ih =>
    cases step with
    | start t pend run don hlen hmem =>
      simpa using hlen
    | finish t pend run don hmem =>
      have hlen := List.length_erase_of_mem hmem
      simp only at ih ⊢
      omega

theorem main_block_num_images (query : Option (List String)) (u : Bool) (o : Option FPath)
    (n n' : Nat) (f : Option String) (jc : Bool) (l : Option (List (List String)))
    (wq : QueryWorld) (worlds : Nat → QueryWorld) (fs : FS) :
    main_block query u o n' f jc l wq worlds fs = main_block query u o n f jc l wq worlds fs :=
  rfl

theorem main_run_num_images (args : RawArgs) (n' : Nat) (wq : QueryWorld)
    (worlds : Nat → QueryWorld) (fs : FS) :
    main_run { args with num_images := n' } wq worlds fs = main_run args wq worlds fs := by
  obtain ⟨q, n, l, o, f, u, jc⟩ := args
  cases o with
  | none => rfl
  | some d =>
    by_cases hdir : fs.isDir d = true
    · simp only [main_run, get_user_input, path_dir, if_pos hdir, Except.map]
      exact main_block_num_images q u (some d) n n' f jc l wq worlds fs
    · simp only [main_run, get_user_input, path_dir, if_neg hdir, Except.map]

end ImageDownloader

namespace ImageDownloader

/-- C1: evaluation of the code at a failing extraction. When the search-page
request of one query times out (or one div fails to decode), the claim of the
specification fails on the code: the timeout is printed at the query level,
but `fetch_image_urls` then raises `UnboundLocalError` on the unassigned
`soup` instead of returning a zero-record list, and a parse failure is not
reported at all. The raised error is captured in the orchestrator's unread
future, so it indeed does not propagate past `download_list_queries` and the
sibling query is fetched normally, as the last conjunct shows on a concrete
two-query run. -/
theorem extraction_failure_code_behavior :
    (fetch_image_urls PageOutcome.timeout).log =
      ["The request has timed out, check your connection or/and proxy settings"] ∧
    (fetch_image_urls PageOutcome.timeout).result = .error (.unboundLocalError "soup") ∧
    (fetch_image_urls (PageOutcome.ok [none])).log = [] ∧
    (fetch_image_urls (PageOutcome.ok [none])).result = .error .jsonDecodeError ∧
    download_list_queries
      (fun k => if k = 0 then ⟨PageOutcome.timeout, fun _ => ⟨NetOutcome.ok, true⟩⟩
        else ⟨PageOutcome.ok [some ("urlA", "jpg")], fun _ => ⟨NetOutcome.ok, true⟩⟩)
      (some ["out"]) none false false 0 ["dog", "cat"] ⟨[["out"]], []⟩ =
      ([.error (.unboundLocalError "soup"), .ok ⟨[.ok TaskResult.success], none⟩],
        ⟨[[], ["out"], ["out", "cat"], ["out"]], [["out", "cat", "image_0.jpg"]]⟩) :=
  ⟨rfl, rfl, rfl, rfl, rfl⟩

/-- C2: in one batch of fetch tasks, changing the world of a single task `i`
(to any failure: timeout, HTTP error, connection error, or a failing write)
leaves every other task's outcome unchanged, and in both runs the batch
produces exactly one outcome per record - it never short-circuits and never
reruns a task. -/
theorem per_task_failure_isolation (images : List (String × String))
    (w w' : Nat → TaskWorld) (i : Nat) (q : String) (od : Option FPath)
    (fn : Option String) (fs : FS) (hw : ∀ j, j ≠ i → w' j = w j) :
    (runPool w q od fn 0 images fs).1.length = images.length ∧
    (runPool w' q od fn 0 images fs).1.length = images.length ∧
    ∀ j, j ≠ i →
      (runPool w' q od fn 0 images fs).1[j]? = (runPool w q od fn 0 images fs).1[j]? := by
  refine ⟨runPool_length w q od fn images 0 fs, runPool_length w' q od fn images 0 fs, ?_⟩
  intro j hj
  rw [runPool_fst, runPool_fst]
  by_cases hjn : j < images.length
  · rw [List.getElem?_map, List.getElem?_map, List.getElem?_range hjn]
    simp only [Option.map_some', Nat.zero_add]
    rw [hw j hj]
  · have hnone : (List.range images.length)[j]? = none := by
      rw [List.getElem?_eq_none]
      simpa using Nat.le_of_not_lt hjn
    rw [List.getElem?_map, List.getElem?_map, hnone]
    rfl

/-- C3 counterexample: the claimed normalization of the three-space query
"red   bear" to red_bear is false on the code; `str.replace` replaces each
space by one underscore and does not collapse runs, both on
`default_query_name` directly and through the space-to-plus substitution the
batch coordinator applies first. -/
theorem query_normalization_counterexample :
    decide (default_query_name "red   bear" = "red_bear") = false ∧
    decide (default_query_name (pyReplaceChar ' ' '+' "red   bear") = "red_bear") = false := by
  constructor
  · rfl
  · rfl

/-- C3 as amended: normalization strips surrounding list and quote characters
and replaces each `+` and each space by one underscore (runs are not
collapsed), so "red   bear" normalizes to red___bear; "cat+dog" normalizes to
cat_dog; the list input of dog and horse normalizes to the two independent
queries dog and horse. -/
theorem query_normalization_amended :
    default_query_name "red   bear" = "red___bear" ∧
    default_query_name (pyReplaceChar ' ' '+' "red   bear") = "red___bear" ∧
    default_query_name "cat+dog" = "cat_dog" ∧
    [["dog"], ["horse"]].map normalize_list_query = ["dog", "horse"] :=
  ⟨rfl, rfl, rfl, rfl⟩

/-- C4: in an all-successful batch over an existing output directory `d`, the
batch creates one task per record with the indices 0 .. N-1, the task of
record `i` writes its file at exactly
`d / (folder_name or default_query_name(query)) / image_i.<type_hint>` with
the type hint taken verbatim, and the filenames of two distinct indices are
distinct whatever the extensions, so completion order cannot make two tasks
collide. -/
theorem placement_path_and_index_uniqueness (images : List (String × String))
    (w : Nat → TaskWorld) (q : String) (d : FPath) (fn : Option String) (fs : FS)
    (hbase : fs.existsPath d = true)
    (hcan : canCreate fs (d ++ [fn.getD (default_query_name q)]) = true)
    (hw : ∀ j, w j = ⟨NetOutcome.ok, true⟩) :
    (runPool w q (some d) fn 0 images fs).1.length = images.length ∧
    (∀ i, (hi : i < images.length) →
      (d ++ [fn.getD (default_query_name q)] ++ [image_filename i (images.get ⟨i, hi⟩).2]) ∈
        ((runPool w q (some d) fn 0 images fs).2).files) ∧
    (∀ i j : Nat, ∀ e₁ e₂ : String, i ≠ j → image_filename i e₁ ≠ image_filename j e₂) := by
  have hb' : fs.existsPath ((some d : Option FPath).getD default_path_downloads) = true := by
    simpa using hbase
  have hcan' : canCreate fs (taskFolder (some d) fn q) = true := by
    simpa [taskFolder] using hcan
  refine ⟨runPool_length w q (some d) fn images 0 fs, ?_,
    fun i j e₁ e₂ hne => image_filename_ne e₁ e₂ hne⟩
  intro i hi
  have hmem := runPool_writes w q (some d) fn images 0 fs hb' hcan' hw i hi
  simpa [taskFolder, Nat.zero_add] using hmem

/-- C5: over an existing base directory, resolving the same placement twice
returns the same folder path both times; the second resolution leaves the
filesystem unchanged and its `mkdir` call succeeds (because `exist_ok=True`
accepts the now-existing directory); creation is recursive, every missing
ancestor of the folder being created by the first call; and a pre-existing
folder directory is not an error. -/
theorem create_folder_idempotent (fs : FS) (d : FPath) (n : String)
    (hb : fs.existsPath d = true) (hc : canCreate fs (d ++ [n]) = true) :
    ∃ fs₁, create_folder fs d n = .ok (some (d ++ [n]), fs₁) ∧
      create_folder fs₁ d n = .ok (some (d ++ [n]), fs₁) ∧
      mkdir fs₁ (d ++ [n]) true true = .ok fs₁ ∧
      (fs.existsPath (d ++ [n]) = false →
        ∀ p ∈ pathAncestors (d ++ [n]), fs₁.existsPath p = true) := by
  by_cases hf : fs.existsPath (d ++ [n]) = true
  · have hd : fs.isDir (d ++ [n]) = true := by
      simp only [canCreate, hf, Bool.not_true, Bool.false_or] at hc
      exact hc
    refine ⟨fs, create_folder_folder_old hb hf hd, create_folder_folder_old hb hf hd, ?_, ?_⟩
    · simp [mkdir, hf, hd]
    · intro hcontr
      rw [hf] at hcontr
      exact absurd hcontr (by decide)
  · have hf' : fs.existsPath (d ++ [n]) = false := by simpa using hf
    have hd₁ : (fs.addDirs (pathAncestors (d ++ [n]))).isDir (d ++ [n]) = true :=
      isDir_addDirs_of_mem fs _ (mem_pathAncestors_self _)
    have hex₁ : (fs.addDirs (pathAncestors (d ++ [n]))).existsPath (d ++ [n]) = true :=
      existsPath_of_isDir hd₁
    have hb₁ : (fs.addDirs (pathAncestors (d ++ [n]))).existsPath d = true :=
      existsPath_addDirs_of _ hb
    refine ⟨fs.addDirs (pathAncestors (d ++ [n])), create_folder_folder_new hb hf', ?_, ?_, ?_⟩
    · rw [create_folder_folder_old hb₁ hex₁ hd₁]
    · simp [mkdir, hex₁, hd₁]
    · intro _ p hp
      exact existsPath_of_isDir (isDir_addDirs_of_mem fs _ hp)

/-- C6: in csv-only mode over an existing output directory, a batch whose
extractor yields the records `images` creates no fetch task at all (the task
outcome list is empty and the result does not depend on the fetch world `w`),
and writes the csv file `<default_query_name(query)>_urls.csv` in the output
directory, containing the header row and then exactly one row per record in
extraction order. -/
theorem csv_only_mode (images : List (String × String)) (w : Nat → TaskWorld)
    (q : String) (d : FPath) (fn : Option String) (u : Bool) (fs : FS)
    (hb : fs.existsPath d = true) :
    download_images_single_query_async w (.ok (images.map some)) q (some d) fn true u fs =
      (.ok ⟨[], some ⟨d ++ [default_query_name (pyReplaceChar ' ' '+' q) ++ "_urls.csv"],
          ["image_url", "extension"] :: images.map (fun r => [r.1, r.2])⟩⟩,
        fs.addFile (d ++ [default_query_name (pyReplaceChar ' ' '+' q) ++ "_urls.csv"])) ∧
    (["image_url", "extension"] :: images.map (fun r => [r.1, r.2])).length
      = images.length + 1 := by
  constructor
  · have hfetch : (fetch_image_urls (.ok (images.map some))).result = .ok images := by
      simp only [fetch_image_urls]
      exact parse_divs_map_some images
    simp only [download_images_single_query_async, hfetch, Bool.or_true, if_true]
    simp [save_urls_csv, hb]
  · simp

/-- C7: `--num_images` is accepted (parsed, defaulted, and unpacked) but has
no effect: a whole program run is unchanged under any replacement of the
`num_images` argument, and a batch over `N` extracted records always creates
exactly one fetch task per record, never truncating to `num_images` (which
the batch coordinator does not even receive). -/
theorem num_images_no_effect :
    (∀ (args : RawArgs) (n' : Nat) (wq : QueryWorld) (worlds : Nat → QueryWorld) (fs : FS),
      main_run { args with num_images := n' } wq worlds fs = main_run args wq worlds fs) ∧
    (∀ (w : Nat → TaskWorld) (images : List (String × String)) (q : String)
      (od : Option FPath) (fn : Option String) (fs : FS),
      ((download_images_single_query_async w (.ok (images.map some))
          q od fn false false fs).1).map (fun b => b.taskResults.length) =
        .ok images.length) := by
  constructor
  · exact fun args n' wq worlds fs => main_run_num_images args n' wq worlds fs
  · intro w images q od fn fs
    have hfetch : (fetch_image_urls (.ok (images.map some))).result = .ok images := by
      simp only [fetch_image_urls]
      exact parse_divs_map_some images
    simp only [download_images_single_query_async, hfetch, Bool.or_false, if_false]
    simp [Except.map, runPool_length]

/-- C8: when `--output_dir` names a path that is not an existing directory,
the argparse converter `path_dir` fails and the whole run aborts with
`NotADirectoryError` before anything else happens: the result is the fatal
error for every fetch world, so no extraction and no fetch was dispatched. -/
theorem invalid_output_dir_fatal (args : RawArgs) (d : FPath) (fs : FS)
    (hd : args.output_dir = some d) (h : fs.isDir d = false) :
    ∀ (wq : QueryWorld) (worlds : Nat → QueryWorld),
      main_run args wq worlds fs = .error .notADirectoryError := by
  intro wq worlds
  simp [main_run, get_user_input, hd, path_dir, h, Except.map]

/-- C9: both scheduling levels are `ThreadPoolExecutor` pools of fixed width
5 (`inner_pool_max_workers` for the fetch tasks of one batch,
`outer_pool_max_workers` for the query batches), and in every reachable
scheduling state of either pool at most 5 tasks are in flight, whatever the
number of submitted tasks. -/
theorem pool_width_bound :
    (∀ n s, PoolReachable inner_pool_max_workers n s →
      s.running.length ≤ inner_pool_max_workers) ∧
    (∀ n s, PoolReachable outer_pool_max_workers n s →
      s.running.length ≤ outer_pool_max_workers) :=
  ⟨fun n s h => pool_run_bound inner_pool_max_workers n s h,
    fun n s h => pool_run_bound outer_pool_max_workers n s h⟩

/-- C10: when the base output directory does not exist at resolution time,
`create_folder` creates nothing and returns Python `None` instead of creating
the base or raising, and the per-item download then fails with a `TypeError`
(from `None / filename`) that none of the task's `except` clauses catches -
it is an uncaught `Except.error`, unlike the caught-and-logged failure kinds. -/
theorem missing_base_dir_type_error (w : TaskWorld) (img : String × String) (q : String)
    (i : Nat) (d : FPath) (n : String) (fn : Option String) (fs : FS)
    (hb : fs.existsPath d = false) (hnet : w.net = .ok) :
    create_folder fs d n = .ok (none, fs) ∧
    download_image_from_url w img q i (some d) fn fs =
      (.error (.typeError "unsupported operand type for /: NoneType and str"), fs) := by
  refine ⟨create_folder_not_exists n hb, ?_⟩
  obtain ⟨net, wr⟩ := w
  simp only at hnet
  subst hnet
  simp only [download_image_from_url, Option.getD_some]
  rw [create_folder_not_exists _ hb]

end ImageDownloader

namespace ImageDownloader

/-- Witness for C2 at a concrete batch of two records, the first task failing
by timeout in the second run. -/
theorem per_task_failure_isolation_witness :
    (runPool (fun _ => ⟨NetOutcome.ok, true⟩) "dog" (some ["out"]) none 0
        [("u0", "jpg"), ("u1", "png")] ⟨[["out"]], []⟩).1.length =
      [("u0", "jpg"), ("u1", "png")].length ∧
    (runPool (fun j => if j = 0 then ⟨NetOutcome.timeout, true⟩ else ⟨NetOutcome.ok, true⟩)
        "dog" (some ["out"]) none 0
        [("u0", "jpg"), ("u1", "png")] ⟨[["out"]], []⟩).1.length =
      [("u0", "jpg"), ("u1", "png")].length ∧
    ∀ j, j ≠ 0 →
      (runPool (fun j => if j = 0 then ⟨NetOutcome.timeout, true⟩ else ⟨NetOutcome.ok, true⟩)
        "dog" (some ["out"]) none 0
        [("u0", "jpg"), ("u1", "png")] ⟨[["out"]], []⟩).1[j]? =
      (runPool (fun _ => ⟨NetOutcome.ok, true⟩) "dog" (some ["out"]) none 0
        [("u0", "jpg"), ("u1", "png")] ⟨[["out"]], []⟩).1[j]? :=
  per_task_failure_isolation [("u0", "jpg"), ("u1", "png")]
    (fun _ => ⟨NetOutcome.ok, true⟩)
    (fun j => if j = 0 then ⟨NetOutcome.timeout, true⟩ else ⟨NetOutcome.ok, true⟩)
    0 "dog" (some ["out"]) none ⟨[["out"]], []⟩ (fun _ hj => if_neg hj)

/-- Witness for C4 at a concrete two-record batch into the existing directory
`out`. -/
theorem placement_path_and_index_uniqueness_witness :
    (runPool (fun _ => ⟨NetOutcome.ok, true⟩) "dog" (some ["out"]) none 0
        [("urlA", "jpg"), ("urlB", "png")] ⟨[["out"]], []⟩).1.length =
      [("urlA", "jpg"), ("urlB", "png")].length ∧
    (∀ i, (hi : i < [("urlA", "jpg"), ("urlB", "png")].length) →
      (["out"] ++ [(none : Option String).getD (default_query_name "dog")] ++
          [image_filename i ([("urlA", "jpg"), ("urlB", "png")].get ⟨i, hi⟩).2]) ∈
        ((runPool (fun _ => ⟨NetOutcome.ok, true⟩) "dog" (some ["out"]) none 0
          [("urlA", "jpg"), ("urlB", "png")] ⟨[["out"]], []⟩).2).files) ∧
    (∀ i j : Nat, ∀ e₁ e₂ : String, i ≠ j → image_filename i e₁ ≠ image_filename j e₂) :=
  placement_path_and_index_uniqueness [("urlA", "jpg"), ("urlB", "png")]
    (fun _ => ⟨NetOutcome.ok, true⟩) "dog" ["out"] none ⟨[["out"]], []⟩
    (by decide) (by decide) (fun _ => rfl)

/-- Witness for C5 at a concrete base directory. -/
theorem create_folder_idempotent_witness :
    ∃ fs₁, create_folder ⟨[["base"]], []⟩ ["base"] "pics" = .ok (some (["base"] ++ ["pics"]), fs₁) ∧
      create_folder fs₁ ["base"] "pics" = .ok (some (["base"] ++ ["pics"]), fs₁) ∧
      mkdir fs₁ (["base"] ++ ["pics"]) true true = .ok fs₁ ∧
      ((⟨[["base"]], []⟩ : FS).existsPath (["base"] ++ ["pics"]) = false →
        ∀ p ∈ pathAncestors (["base"] ++ ["pics"]), fs₁.existsPath p = true) :=
  create_folder_idempotent ⟨[["base"]], []⟩ ["base"] "pics" (by decide) (by decide)

/-- Witness for C6 at the specification's example of a query yielding three
extracted records. -/
theorem csv_only_mode_witness :
    download_images_single_query_async (fun _ => ⟨NetOutcome.ok, true⟩)
        (.ok ([("u1", "jpg"), ("u2", "png"), ("u3", "gif")].map some)) "dog" (some ["out"])
        none true false ⟨[["out"]], []⟩ =
      (.ok ⟨[], some ⟨["out"] ++ [default_query_name (pyReplaceChar ' ' '+' "dog") ++ "_urls.csv"],
          ["image_url", "extension"] ::
            [("u1", "jpg"), ("u2", "png"), ("u3", "gif")].map (fun r => [r.1, r.2])⟩⟩,
        FS.addFile ⟨[["out"]], []⟩
          (["out"] ++ [default_query_name (pyReplaceChar ' ' '+' "dog") ++ "_urls.csv"])) ∧
    (["image_url", "extension"] ::
        [("u1", "jpg"), ("u2", "png"), ("u3", "gif")].map (fun r => [r.1, r.2])).length =
      [("u1", "jpg"), ("u2", "png"), ("u3", "gif")].length + 1 :=
  csv_only_mode [("u1", "jpg"), ("u2", "png"), ("u3", "gif")] (fun _ => ⟨NetOutcome.ok, true⟩)
    "dog" ["out"] none false ⟨[["out"]], []⟩ (by decide)

/-- Witness for C8 at a concrete invalid output directory on an empty
filesystem, with a concrete world. -/
theorem invalid_output_dir_fatal_witness :
    main_run ⟨none, 100, none, some ["nope"], none, false, false⟩
        ⟨PageOutcome.timeout, fun _ => ⟨NetOutcome.ok, true⟩⟩
        (fun _ => ⟨PageOutcome.timeout, fun _ => ⟨NetOutcome.ok, true⟩⟩) ⟨[], []⟩ =
      .error .notADirectoryError :=
  invalid_output_dir_fatal ⟨none, 100, none, some ["nope"], none, false, false⟩ ["nope"]
    ⟨[], []⟩ rfl (by decide) ⟨PageOutcome.timeout, fun _ => ⟨NetOutcome.ok, true⟩⟩
    (fun _ => ⟨PageOutcome.timeout, fun _ => ⟨NetOutcome.ok, true⟩⟩)

/-- Witness for C9: a state of the inner pool reached after starting the
first of 20 submitted fetch tasks, and the initial state of the outer pool
with 7 submitted queries. -/
theorem pool_width_bound_witness :
    (PoolState.mk ((List.range 20).erase 0) [0] []).running.length ≤ inner_pool_max_workers ∧
    (initPool 7).running.length ≤ outer_pool_max_workers :=
  ⟨pool_width_bound.1 20 ⟨(List.range 20).erase 0, [0], []⟩
      (Relation.ReflTransGen.single
        (PoolStep.start 0 (List.range 20) [] [] (by decide) (by decide))),
    pool_width_bound.2 7 (initPool 7) Relation.ReflTransGen.refl⟩

/-- Witness for C10 at a concrete missing base directory. -/
theorem missing_base_dir_type_error_witness :
    create_folder ⟨[], []⟩ ["nope"] "dog" = .ok (none, ⟨[], []⟩) ∧
    download_image_from_url ⟨NetOutcome.ok, true⟩ ("u", "jpg") "dog" 0 (some ["nope"]) none
        ⟨[], []⟩ =
      (.error (.typeError "unsupported operand type for /: NoneType and str"), ⟨[], []⟩) :=
  missing_base_dir_type_error ⟨NetOutcome.ok, true⟩ ("u", "jpg") "dog" 0 ["nope"] "dog" none
    ⟨[], []⟩ (by decide) rfl

end ImageDownloader
